import Mathlib

/-!
Verification of the kloppy event model, coordinate/orientation transformation
engine and derived-state framework against its specification.

The event data model (`kloppy/domain/models/event.py`) is embedded directly
from the source.  The transformation engine, orientation resolver, coordinate
system registry and state-builder framework live in modules that are not part
of the sources at hand (`kloppy/domain/services/...`, `pitch.py`, `common.py`);
those definitions are modelled from the specification and are marked as such
in their doc comments.  Coordinates are embedded as rationals.
-/

namespace Kloppy

/-- The typed error kinds of the core (kloppy.exceptions): configuration
errors, unresolvable-orientation errors, orphaned-record errors and invalid
filter errors. -/
inductive KloppyError where
  | configurationError
  | orientationError
  | orphanedRecordError
  | invalidFilterError
deriving DecidableEq, Repr

/-- An (x, y) pair of coordinates (kloppy.domain.models.pitch.Point); a record
that has no known location carries `none` instead of a `Point`. -/
structure Point where
  x : ℚ
  y : ℚ
deriving DecidableEq, Repr

/-- One closed axis interval of the playable rectangle. -/
structure Dimension where
  min : ℚ
  max : ℚ
deriving DecidableEq, Repr

/-- The pair of axis intervals defining the playable rectangle
(kloppy.domain.models.pitch.PitchDimensions). -/
structure PitchDimensions where
  x_dim : Dimension
  y_dim : Dimension
deriving DecidableEq, Repr

/-- Which end of the y-axis is "top" (kloppy VerticalOrientation). -/
inductive VerticalOrientation where
  | topToBottom
  | bottomToTop
deriving DecidableEq, Repr

/-- Origin convention of a coordinate system. -/
inductive Origin where
  | topLeft
  | bottomLeft
  | center
deriving DecidableEq, Repr

/-- Modelled from the spec: a CoordinateSystem is the tuple
`(PitchDimensions, VerticalOrientation, origin convention)` (the concrete
CoordinateSystem classes live in kloppy/domain/models/common.py, absent from
the sources at hand). -/
structure CoordinateSystem where
  pitch_dimensions : PitchDimensions
  vertical_orientation : VerticalOrientation
  origin : Origin
deriving DecidableEq, Repr

/-- Attacking-direction convention of a dataset (kloppy Orientation): the
fixed home/away variant, the two dynamic variants, and a not-applicable
variant. -/
inductive Orientation where
  | fixedHomeAway
  | ballOwningTeam
  | actionExecutingTeam
  | notSet
deriving DecidableEq, Repr

/-- Side of a team: home or away (kloppy Ground). -/
inductive Ground where
  | home
  | away
deriving DecidableEq, Repr

/-- A team reference carried by records (kloppy.domain.models.common.Team). -/
structure Team where
  team_id : String
  ground : Ground
deriving DecidableEq, Repr

/-- Modelled from the spec: the invariant `min < max` of a pitch-dimension
interval is validated when the dimension is constructed (pitch.py is absent
from the sources at hand); a zero-width interval is a configuration error. -/
def mkDimension (lo hi : ℚ) : Except KloppyError Dimension :=
  if lo < hi then Except.ok (Dimension.mk lo hi)
  else Except.error KloppyError.configurationError

/-- Modelled from the spec: PitchDimensions construction validates both axis
intervals before any transform runs. -/
def mkPitchDimensions (xlo xhi ylo yhi : ℚ) : Except KloppyError PitchDimensions := do
  let xd ← mkDimension xlo xhi
  let yd ← mkDimension ylo yhi
  Except.ok (PitchDimensions.mk xd yd)

/-- Modelled from the spec: the Coordinate System Registry maps a provider
identifier to a fully specified CoordinateSystem and fails with a
configuration error on an unknown identifier (kloppy's registry module is
absent from the sources at hand; the provider names appear in the tests and
examples under src/). -/
def coordinateSystemFromProvider (provider : String) : Except KloppyError CoordinateSystem :=
  if provider = "statsbomb" then
    Except.ok (CoordinateSystem.mk
      (PitchDimensions.mk (Dimension.mk 0 120) (Dimension.mk 0 80))
      VerticalOrientation.topToBottom Origin.topLeft)
  else if provider = "tracab" then
    Except.ok (CoordinateSystem.mk
      (PitchDimensions.mk (Dimension.mk (-5500) 5500) (Dimension.mk (-3300) 3300))
      VerticalOrientation.bottomToTop Origin.center)
  else if provider = "opta" then
    Except.ok (CoordinateSystem.mk
      (PitchDimensions.mk (Dimension.mk 0 100) (Dimension.mk 0 100))
      VerticalOrientation.bottomToTop Origin.bottomLeft)
  else Except.error KloppyError.configurationError

/-- Modelled from the spec: mirroring reflects a coordinate about the
midpoint of its axis bounds, `x' = min + max - x`. -/
def reflectDim (d : Dimension) (x : ℚ) : ℚ := d.min + d.max - x

/-- Modelled from the spec: linear rescale from the source interval to the
target interval,
`x' = target_min + (x - source_min) / (source_max - source_min) * (target_max - target_min)`. -/
def rescaleDim (src tgt : Dimension) (x : ℚ) : ℚ :=
  tgt.min + (x - src.min) / (src.max - src.min) * (tgt.max - tgt.min)

/-- Modelled from the spec: the per-axis pipeline of the transformation
engine: reflect about the source bounds when the mirror flag is set, then
linearly rescale into the target interval, then reflect about the target
bounds when the vertical convention flips. -/
def transformAxis (src tgt : Dimension) (mirror flipV : Bool) (x : ℚ) : ℚ :=
  let x1 := if mirror then reflectDim src x else x
  let x2 := rescaleDim src tgt x1
  if flipV then reflectDim tgt x2 else x2

/-- The 0–120 axis interval of the concrete scenario. -/
def dim120 : Dimension := Dimension.mk 0 120

/-- The 0–1 normalized axis interval of the concrete scenario. -/
def dim01 : Dimension := Dimension.mk 0 1

/-- ShotResult members (event.py). -/
inductive ShotResult where
  | goal
  | offTarget
  | post
  | blocked
  | saved
  | ownGoal
deriving DecidableEq, Repr

/-- PassResult members (event.py). -/
inductive PassResult where
  | complete
  | incomplete
  | out
  | offside
deriving DecidableEq, Repr

/-- TakeOnResult members (event.py). -/
inductive TakeOnResult where
  | complete
  | incomplete
  | out
deriving DecidableEq, Repr

/-- CarryResult members (event.py). -/
inductive CarryResult where
  | complete
  | incomplete
deriving DecidableEq, Repr

/-- A result value together with the ResultType enum class it belongs to
(the `self.result.__class__` of event.py). -/
inductive ResultVal where
  | shot : ShotResult → ResultVal
  | pass : PassResult → ResultVal
  | takeOn : TakeOnResult → ResultVal
  | carry : CarryResult → ResultVal
deriving DecidableEq, Repr

/-- CardType members (event.py). -/
inductive CardType where
  | firstYellow
  | secondYellow
  | red
deriving DecidableEq, Repr

/-- SetPieceType members (event.py). -/
inductive SetPieceType where
  | goalKick
  | freeKick
  | throwIn
  | cornerKick
  | penalty
  | kickOff
deriving DecidableEq, Repr

/-- PassType members (event.py). -/
inductive PassType where
  | cross
  | handPass
  | headPass
  | highPass
  | launch
  | simplePass
  | smartPass
  | longBall
  | throughBall
  | chippedPass
  | flickOn
  | assist
  | assistSecond
  | switchOfPlay
deriving DecidableEq, Repr

/-- BodyPart members (event.py). -/
inductive BodyPart where
  | rightFoot
  | leftFoot
  | head
  | bothHands
  | chest
  | leftHand
  | rightHand
  | dropKick
  | keeperArm
  | other
  | noTouch
deriving DecidableEq, Repr

/-- GoalkeeperAction members (event.py). -/
inductive GoalkeeperAction where
  | reflex
  | saveAttempt
deriving DecidableEq, Repr

/-- A qualifier instance: the concrete Qualifier subclasses of event.py as a
tagged union (SetPieceQualifier, CardQualifier, PassQualifier,
BodyPartQualifier, GoalkeeperActionQualifier are EnumQualifiers;
CounterAttackQualifier is a BoolQualifier). -/
inductive Qualifier where
  | setPiece : SetPieceType → Qualifier
  | card : CardType → Qualifier
  | pass : PassType → Qualifier
  | bodyPart : BodyPart → Qualifier
  | goalkeeperAction : GoalkeeperAction → Qualifier
  | counterAttack : Bool → Qualifier
deriving DecidableEq, Repr

/-- The `value` attribute of a qualifier, as a tagged union over the value
types of the concrete Qualifier subclasses. -/
inductive QualifierValue where
  | setPiece : SetPieceType → QualifierValue
  | card : CardType → QualifierValue
  | pass : PassType → QualifierValue
  | bodyPart : BodyPart → QualifierValue
  | goalkeeperAction : GoalkeeperAction → QualifierValue
  | bool : Bool → QualifierValue
deriving DecidableEq, Repr

/-- The classes usable as the `qualifier_type` argument of
`get_qualifier_value`: the concrete Qualifier subclasses and the abstract
bases EnumQualifier, BoolQualifier and Qualifier itself. -/
inductive QualifierType where
  | setPieceQualifier
  | cardQualifier
  | passQualifier
  | bodyPartQualifier
  | goalkeeperActionQualifier
  | counterAttackQualifier
  | enumQualifier
  | boolQualifier
  | qualifierBase
deriving DecidableEq, Repr

/-- The `isinstance(qualifier, qualifier_type)` check of event.py: a concrete
qualifier is an instance of its own class, of its abstract base
(EnumQualifier or BoolQualifier), and of Qualifier. -/
def isinstanceQ (q : Qualifier) (t : QualifierType) : Bool :=
  match t with
  | QualifierType.qualifierBase => true
  | QualifierType.enumQualifier =>
      match q with
      | Qualifier.counterAttack _ => false
      | _ => true
  | QualifierType.boolQualifier =>
      match q with
      | Qualifier.counterAttack _ => true
      | _ => false
  | QualifierType.setPieceQualifier =>
      match q with
      | Qualifier.setPiece _ => true
      | _ => false
  | QualifierType.cardQualifier =>
      match q with
      | Qualifier.card _ => true
      | _ => false
  | QualifierType.passQualifier =>
      match q with
      | Qualifier.pass _ => true
      | _ => false
  | QualifierType.bodyPartQualifier =>
      match q with
      | Qualifier.bodyPart _ => true
      | _ => false
  | QualifierType.goalkeeperActionQualifier =>
      match q with
      | Qualifier.goalkeeperAction _ => true
      | _ => false
  | QualifierType.counterAttackQualifier =>
      match q with
      | Qualifier.counterAttack _ => true
      | _ => false

/-- The `.value` attribute read by `get_qualifier_value` (event.py). -/
def qualifierValueOf (q : Qualifier) : QualifierValue :=
  match q with
  | Qualifier.setPiece v => QualifierValue.setPiece v
  | Qualifier.card v => QualifierValue.card v
  | Qualifier.pass v => QualifierValue.pass v
  | Qualifier.bodyPart v => QualifierValue.bodyPart v
  | Qualifier.goalkeeperAction v => QualifierValue.goalkeeperAction v
  | Qualifier.counterAttack v => QualifierValue.bool v

/-- EventType members (event.py). -/
inductive EventType where
  | generic
  | pass
  | shot
  | takeOn
  | carry
  | substitution
  | card
  | playerOn
  | playerOff
  | recovery
  | ballOut
  | foulCommitted
  | formationChange
deriving DecidableEq, Repr

/-- The `EventType[name]` member-name lookup of the Python Enum class used by
`Event.matches` (event.py): maps a member name to the member, `none` on a
KeyError. -/
def eventTypeFromName (s : String) : Option EventType :=
  if s = "GENERIC" then some EventType.generic
  else if s = "PASS" then some EventType.pass
  else if s = "SHOT" then some EventType.shot
  else if s = "TAKE_ON" then some EventType.takeOn
  else if s = "CARRY" then some EventType.carry
  else if s = "SUBSTITUTION" then some EventType.substitution
  else if s = "CARD" then some EventType.card
  else if s = "PLAYER_ON" then some EventType.playerOn
  else if s = "PLAYER_OFF" then some EventType.playerOff
  else if s = "RECOVERY" then some EventType.recovery
  else if s = "BALL_OUT" then some EventType.ballOut
  else if s = "FOUL_COMMITTED" then some EventType.foulCommitted
  else if s = "FORMATION_CHANGE" then some EventType.formationChange
  else none

/-- The `self.result.__class__[result]` member-name lookup of event.py:
looks the name up in the enum class of the given result value, `none` on a
KeyError (the name is not a member of that class). -/
def resultClassLookup (rv : ResultVal) (name : String) : Option ResultVal :=
  match rv with
  | ResultVal.shot _ =>
      if name = "GOAL" then some (ResultVal.shot ShotResult.goal)
      else if name = "OFF_TARGET" then some (ResultVal.shot ShotResult.offTarget)
      else if name = "POST" then some (ResultVal.shot ShotResult.post)
      else if name = "BLOCKED" then some (ResultVal.shot ShotResult.blocked)
      else if name = "SAVED" then some (ResultVal.shot ShotResult.saved)
      else if name = "OWN_GOAL" then some (ResultVal.shot ShotResult.ownGoal)
      else none
  | ResultVal.pass _ =>
      if name = "COMPLETE" then some (ResultVal.pass PassResult.complete)
      else if name = "INCOMPLETE" then some (ResultVal.pass PassResult.incomplete)
      else if name = "OUT" then some (ResultVal.pass PassResult.out)
      else if name = "OFFSIDE" then some (ResultVal.pass PassResult.offside)
      else none
  | ResultVal.takeOn _ =>
      if name = "COMPLETE" then some (ResultVal.takeOn TakeOnResult.complete)
      else if name = "INCOMPLETE" then some (ResultVal.takeOn TakeOnResult.incomplete)
      else if name = "OUT" then some (ResultVal.takeOn TakeOnResult.out)
      else none
  | ResultVal.carry _ =>
      if name = "COMPLETE" then some (ResultVal.carry CarryResult.complete)
      else if name = "INCOMPLETE" then some (ResultVal.carry CarryResult.incomplete)
      else none

/-- An event record (event.py `Event` and its subclasses, flattened: the
subclass-specific spatial attributes `receiver_coordinates`,
`end_coordinates` and `result_coordinates` are optional fields; the
period and ball-owning-team context of the enclosing DataRecord is carried on
the record). The `state` slot maps builder keys to computed values. -/
structure Event where
  event_id : String
  event_type : EventType
  period_id : Nat
  timestamp : ℚ
  team : Option Team
  player : Option String
  ball_owning_team : Option Team
  coordinates : Option Point
  receiver_coordinates : Option Point
  end_coordinates : Option Point
  result_coordinates : Option Point
  result : Option ResultVal
  state : List (String × ℤ)
  related_event_ids : List String
  qualifiers : Option (List Qualifier)
deriving DecidableEq, Repr

/-- Dataset-level metadata carrying the originating coordinate system and
orientation. -/
structure Metadata where
  coordinate_system : CoordinateSystem
  orientation : Orientation
deriving DecidableEq, Repr

/-- An event dataset: metadata plus the ordered list of event records
(event.py `EventDataset`). -/
structure EventDataset where
  metadata : Metadata
  records : List Event
deriving DecidableEq, Repr

/-- Sequential effectful map over a list, propagating the first error, as a
Python `for` loop over records does. -/
def mapME {α β : Type} (f : α → Except KloppyError β) : List α → Except KloppyError (List β)
  | [] => Except.ok []
  | a :: as => do
    let b ← f a
    let bs ← mapME f as
    Except.ok (b :: bs)

/-- `Event.get_qualifier_value` (event.py lines 422–439): when the
`qualifiers` attribute is truthy, return the `value` of the first qualifier
that is an instance of the requested type; otherwise return `None`.  A
Python `None` qualifiers attribute and an empty list are both falsy, and a
loop over an empty list also falls through, so both yield `None`. -/
def get_qualifier_value (e : Event) (t : QualifierType) : Option QualifierValue :=
  match e.qualifiers with
  | none => none
  | some qs =>
      match qs.find? (fun q => isinstanceQ q t) with
      | some q => some (qualifierValueOf q)
      | none => none

/-- Modelled from the spec: the dataset's lookup-by-identifier operation
(`Dataset.get_record_by_id`, defined in kloppy/domain/models/common.py, absent
from the sources at hand): resolves an identifier through the dataset's
records at call time; a missing identifier is an orphaned-reference error. -/
def get_record_by_id (d : EventDataset) (record_id : String) : Except KloppyError Event :=
  match d.records.find? (fun r => r.event_id = record_id) with
  | some r => Except.ok r
  | none => Except.error KloppyError.orphanedRecordError

/-- `Event.get_related_events` (event.py lines 441–448): raise
OrphanedRecordError when the record's dataset reference is absent, else
resolve every identifier of `related_event_ids`, in order, through the owning
dataset's lookup-by-identifier. -/
def get_related_events (datasetRef : Option EventDataset) (e : Event) :
    Except KloppyError (List Event) :=
  match datasetRef with
  | none => Except.error KloppyError.orphanedRecordError
  | some d => mapME (get_record_by_id d) e.related_event_ids

/-- The result check of `Event.matches` (event.py lines 532–542): an absent
result on the event returns `False`; a name that is not a member of the
result's enum class is a KeyError caught and returned as `False`; a member
different from the event's result returns `False`.  An empty result part is
falsy in Python and skips the check. -/
def matchesResultPart (e : Event) (res : Option String) : Bool :=
  match res with
  | none => true
  | some r =>
      if r = "" then true
      else
        match e.result with
        | none => false
        | some rv =>
            match resultClassLookup rv r with
            | none => false
            | some rv2 => rv = rv2

/-- The body of `Event.matches` for an already-split filter (event.py lines
523–544): an empty event-type part is falsy in Python and skips the
event-type check; a non-empty part that is not a member name of EventType
raises InvalidFilterError; a mismatching event type returns `False`;
otherwise the result part decides. -/
def matchesParts (e : Event) (et : String) (res : Option String) :
    Except KloppyError Bool :=
  if et = "" then Except.ok (matchesResultPart e res)
  else
    match eventTypeFromName et with
    | none => Except.error KloppyError.invalidFilterError
    | some t =>
        if e.event_type = t then Except.ok (matchesResultPart e res)
        else Except.ok false

/-- The character-level worker of Python `str.split(".")`: splits a
character list on every dot, keeping empty segments. -/
def splitDotAux : List Char → List (List Char)
  | [] => [[]]
  | c :: rest =>
    match splitDotAux rest with
    | [] => [[c]]
    | s :: ss => if c = '.' then [] :: s :: ss else (c :: s) :: ss

/-- Python `str.split(".")`: a list of segments, one more than the number of
dots; the empty string yields one empty segment. -/
def splitOnDot (s : String) : List String :=
  (splitDotAux s.data).map String.mk

/-- Python `str.upper()` on the filter string. -/
def upperString (s : String) : String := String.mk (s.data.map Char.toUpper)

/-- `Event.matches` for string (and `None`) filters (event.py lines
499–544): `None` always matches; a string filter is upper-cased and split on
`.` into an event-type part and an optional result part; more than two parts
raise InvalidFilterError. -/
def matchesF (e : Event) (filt : Option String) : Except KloppyError Bool :=
  match filt with
  | none => Except.ok true
  | some f =>
      match splitOnDot (upperString f) with
      | [et] => matchesParts e et none
      | [et, res] => matchesParts e et (some res)
      | _ => Except.error KloppyError.invalidFilterError

/-- Modelled from the spec: the Orientation Resolver (spec §4.2, implemented
in kloppy/domain/services, absent from the sources at hand).  Resolving the
same target orientation as the dataset's source orientation yields "no
mirror".  Otherwise: under the fixed home/away convention a home record is
not mirrored and an away record is mirrored; under the ball-owning-team and
action-executing-team conventions the decision needs the record's dynamic
context (ball-owning team, respectively the record's own team) and resolution
fails with an unresolvable-orientation error when that context is absent
rather than guessing a direction. -/
def resolveMirror (source target : Orientation) (r : Event) : Except KloppyError Bool :=
  if source = target then Except.ok false
  else
    match target with
    | Orientation.notSet => Except.ok false
    | Orientation.fixedHomeAway =>
        match r.team with
        | none => Except.ok false
        | some t => Except.ok (t.ground = Ground.away)
    | Orientation.ballOwningTeam =>
        match r.ball_owning_team with
        | none => Except.error KloppyError.orientationError
        | some t => Except.ok (t.ground = Ground.away)
    | Orientation.actionExecutingTeam =>
        match r.team with
        | none => Except.error KloppyError.orientationError
        | some t => Except.ok (t.ground = Ground.away)

/-- Modelled from the spec: the per-point mapping of the transformation
engine: the x-axis applies the horizontal mirror decision, the y-axis applies
the vertical reflection when the vertical convention flips; each axis maps
from its source interval to its target interval. -/
def transformPoint (src tgt : CoordinateSystem) (mirror flipV : Bool) (p : Point) : Point :=
  Point.mk
    (transformAxis src.pitch_dimensions.x_dim tgt.pitch_dimensions.x_dim mirror false p.x)
    (transformAxis src.pitch_dimensions.y_dim tgt.pitch_dimensions.y_dim false flipV p.y)

/-- Modelled from the spec: the per-record step of the transformation engine
(spec §4.3): resolve the mirror decision from the record's context, then
apply the same point mapping to the primary coordinates and to every
secondary spatial attribute, leaving all non-spatial attributes untouched; an
absent coordinate stays absent. -/
def transformRecord (src tgt : CoordinateSystem) (sourceO targetO : Orientation)
    (r : Event) : Except KloppyError Event := do
  let mirror ← resolveMirror sourceO targetO r
  let flipV := decide (src.vertical_orientation ≠ tgt.vertical_orientation)
  let f := transformPoint src tgt mirror flipV
  Except.ok { r with
    coordinates := r.coordinates.map f
    receiver_coordinates := r.receiver_coordinates.map f
    end_coordinates := r.end_coordinates.map f
    result_coordinates := r.result_coordinates.map f }

/-- Modelled from the spec: `transform(dataset, to_coordinate_system,
to_orientation)` (spec §4.3): map every record through the per-record step —
any per-record failure aborts the whole transform — and produce a new dataset
carrying the target coordinate system and orientation in its metadata. -/
def transformDataset (d : EventDataset) (tgt : CoordinateSystem)
    (targetO : Orientation) : Except KloppyError EventDataset := do
  let recs ← mapME
    (transformRecord d.metadata.coordinate_system tgt d.metadata.orientation targetO)
    d.records
  Except.ok (EventDataset.mk (Metadata.mk tgt targetO) recs)

/-- Modelled from the spec: a StateBuilder (spec §3, §4.4): a named stateful
accumulator whose context is advanced exactly once per record. -/
structure StateBuilder where
  key : String
  init : ℤ
  step : ℤ → Event → ℤ

/-- Modelled from the spec: the builder registry lookup; `none` for an
unregistered key. -/
def lookupBuilder (registry : List StateBuilder) (k : String) : Option StateBuilder :=
  registry.find? (fun b => b.key = k)

/-- Write a builder's snapshot under its key into a record's state mapping,
replacing any previous value under that key. -/
def setState (st : List (String × ℤ)) (k : String) (v : ℤ) : List (String × ℤ) :=
  (k, v) :: st.filter (fun p => ¬ (p.fst = k))

/-- Read a key from a record's state mapping. -/
def lookupState (st : List (String × ℤ)) (k : String) : Option ℤ :=
  (st.find? (fun p => p.fst = k)).map (fun p => p.snd)

/-- Modelled from the spec: the single left-to-right pass of the
derived-state framework (spec §4.4) for one builder: advance the context on
each record and attach the context's value as of having processed that
record, so the record's own effect is visible in its own snapshot. -/
def annotate (b : StateBuilder) : ℤ → List Event → List Event
  | _, [] => []
  | ctx, r :: rs =>
      let ctx2 := b.step ctx r
      { r with state := setState r.state b.key ctx2 } :: annotate b ctx2 rs

/-- Modelled from the spec: `add_state(dataset, *builder_keys)`
(EventDataset.add_state, event.py lines 861–867, delegates to
kloppy/domain/services/state_builder, absent from the sources at hand):
colliding builder keys and unregistered builder keys are configuration
errors raised before the pass begins; otherwise each resolved builder runs
its single sequential pass and a new dataset is returned. -/
def addState (registry : List StateBuilder) (keys : List String)
    (d : EventDataset) : Except KloppyError EventDataset :=
  if keys.Nodup then do
    let bs ← mapME
      (fun k =>
        match lookupBuilder registry k with
        | some b => Except.ok b
        | none => Except.error KloppyError.configurationError)
      keys
    Except.ok (EventDataset.mk d.metadata
      (bs.foldl (fun recs b => annotate b b.init recs) d.records))
  else Except.error KloppyError.configurationError

/-- Modelled from the spec: the caller-visible heap of datasets.  The spec
states that `transform` and `add_state` "return new datasets" and "never
mutate in place"; the heap makes that observable: an operation reads its
input at an address and allocates its output at a fresh address. -/
structure Heap where
  datasets : List EventDataset

/-- Allocate a dataset at a fresh address of the heap. -/
def Heap.alloc (h : Heap) (d : EventDataset) : Heap × Nat :=
  (Heap.mk (h.datasets ++ [d]), h.datasets.length)

/-- Modelled from the spec: `transform` as an operation on the dataset heap:
read the input dataset, compute its transform, allocate the result. -/
def transformOp (h : Heap) (i : Nat) (tgt : CoordinateSystem)
    (targetO : Orientation) : Except KloppyError (Heap × Nat) := do
  match h.datasets.get? i with
  | none => Except.error KloppyError.configurationError
  | some d => do
      let d2 ← transformDataset d tgt targetO
      Except.ok (h.alloc d2)

/-- Modelled from the spec: `add_state` as an operation on the dataset heap:
read the input dataset, run the state pass, allocate the result. -/
def addStateOp (registry : List StateBuilder) (h : Heap) (i : Nat)
    (keys : List String) : Except KloppyError (Heap × Nat) := do
  match h.datasets.get? i with
  | none => Except.error KloppyError.configurationError
  | some d => do
      let d2 ← addState registry keys d
      Except.ok (h.alloc d2)

/-- Whether a record lacks the dynamic context a ball-owning or
action-executing orientation target needs: the ball-owning team,
respectively the team executing the action. -/
def missingContext (target : Orientation) (r : Event) : Bool :=
  match target with
  | Orientation.ballOwningTeam => r.ball_owning_team.isNone
  | Orientation.actionExecutingTeam => r.team.isNone
  | _ => false

/-- The unit-square coordinate system used by concrete instances. -/
def cs01 : CoordinateSystem :=
  CoordinateSystem.mk (PitchDimensions.mk dim01 dim01)
    VerticalOrientation.topToBottom Origin.topLeft

/-- The 0–120 by 0–80 coordinate system used by concrete instances. -/
def cs120 : CoordinateSystem :=
  CoordinateSystem.mk (PitchDimensions.mk dim120 (Dimension.mk 0 80))
    VerticalOrientation.topToBottom Origin.topLeft

/-- A concrete generic event with no coordinates, no team context, no result
and no qualifiers. -/
def ev0 : Event :=
  Event.mk "e1" EventType.generic 1 0 none none none none none none none none [] [] none

/-- A concrete shot event that resulted in a goal. -/
def evShot : Event :=
  { ev0 with
    event_id := "s1"
    event_type := EventType.shot
    result := some (ResultVal.shot ShotResult.goal) }

/-- A concrete completed pass event. -/
def evPass : Event :=
  { ev0 with
    event_id := "p1"
    event_type := EventType.pass
    result := some (ResultVal.pass PassResult.complete) }

/-- A concrete qualifier list whose first set-piece qualifier sits at index
1, behind a counter-attack qualifier. -/
def qlist : List Qualifier :=
  [Qualifier.counterAttack true, Qualifier.setPiece SetPieceType.penalty,
   Qualifier.setPiece SetPieceType.cornerKick]

/-- A concrete event carrying `qlist` as its qualifiers. -/
def e9 : Event := { ev0 with qualifiers := some qlist }

/-- A concrete event related to the shot event by identifier. -/
def e6 : Event := { ev0 with event_id := "e6", related_event_ids := ["s1"] }

/-- A concrete dataset holding the shot event. -/
def d6 : EventDataset :=
  EventDataset.mk (Metadata.mk cs120 Orientation.fixedHomeAway) [evShot]

/-- A concrete running-score builder: counts shot events whose result is a
goal. -/
def scoreBuilder : StateBuilder :=
  StateBuilder.mk "score" 0
    (fun ctx r =>
      if r.result = some (ResultVal.shot ShotResult.goal) then ctx + 1 else ctx)

/-- A concrete one-record dataset in the 0–120 system with the fixed
home/away orientation. -/
def d0 : EventDataset :=
  EventDataset.mk (Metadata.mk cs120 Orientation.fixedHomeAway) [ev0]

/-- A concrete two-record dataset: a goal shot followed by a generic event. -/
def d4 : EventDataset :=
  EventDataset.mk (Metadata.mk cs120 Orientation.fixedHomeAway) [evShot, ev0]

/-- The transform of `d0` into the unit-square system. -/
def d0T : EventDataset :=
  EventDataset.mk (Metadata.mk cs01 Orientation.fixedHomeAway) [ev0]

/-- The event `ev0` annotated with the score snapshot. -/
def ev0S : Event := { ev0 with state := [("score", (0 : ℤ))] }

/-- The dataset `d0` after the score state pass. -/
def d0S : EventDataset :=
  EventDataset.mk (Metadata.mk cs120 Orientation.fixedHomeAway) [ev0S]

/-- A concrete heap holding only `d0`. -/
def hp0 : Heap := Heap.mk [d0]

/-- The heap after transforming `d0` into the unit-square system. -/
def hpT : Heap := Heap.mk [d0, d0T]

/-- The heap after running the score state pass on `d0`. -/
def hpS : Heap := Heap.mk [d0, d0S]

/-- A coordinate system satisfying the pitch-dimension invariant `min < max`
on both axes. -/
def validCS (c : CoordinateSystem) : Prop :=
  c.pitch_dimensions.x_dim.min < c.pitch_dimensions.x_dim.max
  ∧ c.pitch_dimensions.y_dim.min < c.pitch_dimensions.y_dim.max

lemma mapME_cons {α β : Type} (f : α → Except KloppyError β) (a : α) (as : List α) :
    mapME f (a :: as)
      = (f a).bind (fun b => (mapME f as).bind (fun bs => Except.ok (b :: bs))) :=
  rfl

lemma mapME_ok_id {α : Type} (f : α → Except KloppyError α) :
    ∀ (l : List α), (∀ x ∈ l, f x = Except.ok x) → mapME f l = Except.ok l
  | [], _ => rfl
  | a :: as, h => by
    have ha : f a = Except.ok a := h a (List.mem_cons_self a as)
    have has : mapME f as = Except.ok as :=
      mapME_ok_id f as (fun x hx => h x (List.mem_cons_of_mem a hx))
    rw [mapME_cons, ha, has]
    rfl

lemma mapME_error_of_mem {α β : Type} (f : α → Except KloppyError β) (e : KloppyError) :
    ∀ (l : List α), (∀ x ∈ l, f x = Except.error e ∨ ∃ y, f x = Except.ok y) →
      (∃ x ∈ l, f x = Except.error e) → mapME f l = Except.error e
  | [], _, hex => by simp at hex
  | a :: as, hall, hex => by
    rcases hall a (List.mem_cons_self a as) with ha | ⟨y, hy⟩
    · rw [mapME_cons, ha]; rfl
    · have htail : ∃ x ∈ as, f x = Except.error e := by
        rcases hex with ⟨x, hx, hfx⟩
        rcases List.mem_cons.mp hx with rfl | hx2
        · rw [hy] at hfx; exact absurd hfx (by simp)
        · exact ⟨x, hx2, hfx⟩
      have has := mapME_error_of_mem f e as
        (fun x hx => hall x (List.mem_cons_of_mem a hx)) htail
      rw [mapME_cons, hy, has]
      rfl

lemma mapME_ok_spec {α β : Type} (f : α → Except KloppyError β) :
    ∀ (l : List α) (out : List β), mapME f l = Except.ok out →
      out.length = l.length
      ∧ ∀ (i : Nat) (hi : i < l.length) (ho : i < out.length),
          f (l.get ⟨i, hi⟩) = Except.ok (out.get ⟨i, ho⟩)
  | [], out, h => by
    have hout : out = [] := by
      have h2 : Except.ok (ε := KloppyError) ([] : List β) = Except.ok out := h
      exact (Except.ok.inj h2).symm
    subst hout
    refine ⟨rfl, ?_⟩
    intro i hi ho
    exact absurd hi (by simp)
  | a :: as, out, h => by
    rcases hfa : f a with e | b
    · rw [mapME_cons, hfa] at h; exact absurd h (by simp [Except.bind])
    · rw [mapME_cons, hfa] at h
      rcases hmas : mapME f as with e2 | bs
      · rw [hmas] at h; exact absurd h (by simp [Except.bind])
      · rw [hmas] at h
        have hout : out = b :: bs := by
          have h2 : Except.ok (ε := KloppyError) (b :: bs) = Except.ok out := h
          exact (Except.ok.inj h2).symm
        subst hout
        obtain ⟨hlen, hget⟩ := mapME_ok_spec f as bs hmas
        refine ⟨by simp [hlen], ?_⟩
        intro i hi ho
        cases i with
        | zero => simpa using hfa
        | succ n =>
          simpa using hget n (by simpa using hi) (by simpa using ho)

lemma rescaleDim_self (d : Dimension) (h : d.min < d.max) (x : ℚ) :
    rescaleDim d d x = x := by
  have hne : d.max - d.min ≠ 0 := sub_ne_zero.mpr (ne_of_gt h)
  unfold rescaleDim
  rw [div_mul_cancel₀ _ hne]
  ring

lemma transformAxis_id (d : Dimension) (h : d.min < d.max) (x : ℚ) :
    transformAxis d d false false x = x :=
  rescaleDim_self d h x

lemma transformPoint_self (c : CoordinateSystem) (h : validCS c) (p : Point) :
    transformPoint c c false false p = p := by
  cases p with
  | mk px py =>
    unfold transformPoint
    rw [transformAxis_id _ h.1, transformAxis_id _ h.2]

lemma resolveMirror_self (o : Orientation) (r : Event) :
    resolveMirror o o r = Except.ok false := by
  unfold resolveMirror
  rw [if_pos rfl]

lemma option_map_self {α : Type} (f : α → α) (hf : ∀ a, f a = a) :
    ∀ o : Option α, o.map f = o
  | none => rfl
  | some a => by rw [Option.map_some', hf]

lemma transformRecord_self (c : CoordinateSystem) (h : validCS c) (o : Orientation)
    (r : Event) : transformRecord c c o o r = Except.ok r := by
  unfold transformRecord
  rw [resolveMirror_self]
  show Except.ok { r with
      coordinates := r.coordinates.map
        (transformPoint c c false (decide (c.vertical_orientation ≠ c.vertical_orientation)))
      receiver_coordinates := r.receiver_coordinates.map
        (transformPoint c c false (decide (c.vertical_orientation ≠ c.vertical_orientation)))
      end_coordinates := r.end_coordinates.map
        (transformPoint c c false (decide (c.vertical_orientation ≠ c.vertical_orientation)))
      result_coordinates := r.result_coordinates.map
        (transformPoint c c false (decide (c.vertical_orientation ≠ c.vertical_orientation)))
    } = Except.ok r
  have hv : decide (c.vertical_orientation ≠ c.vertical_orientation) = false := by simp
  rw [hv]
  rw [option_map_self _ (transformPoint_self c h) r.coordinates,
      option_map_self _ (transformPoint_self c h) r.receiver_coordinates,
      option_map_self _ (transformPoint_self c h) r.end_coordinates,
      option_map_self _ (transformPoint_self c h) r.result_coordinates]

/-- C2: transforming a dataset twice to the same target coordinate system and
orientation equals transforming once, and resolving the target orientation
against a dataset already carrying it yields a no-mirror decision for every
record. -/
theorem transform_idempotent (d : EventDataset) (tgt : CoordinateSystem)
    (o : Orientation) (hv : validCS tgt) (d2 : EventDataset)
    (h : transformDataset d tgt o = Except.ok d2) :
    transformDataset d2 tgt o = Except.ok d2
    ∧ ∀ r ∈ d2.records, resolveMirror d2.metadata.orientation o r = Except.ok false := by
  unfold transformDataset at h
  rcases hm : mapME
      (transformRecord d.metadata.coordinate_system tgt d.metadata.orientation o)
      d.records with e | recs
  · rw [hm] at h; exact Except.noConfusion h
  · rw [hm] at h
    have hd2 : EventDataset.mk (Metadata.mk tgt o) recs = d2 := Except.ok.inj h
    subst hd2
    constructor
    · unfold transformDataset
      rw [mapME_ok_id _ recs (fun r _ => transformRecord_self tgt hv o r)]
      rfl
    · intro r _
      exact resolveMirror_self o r

/-- Witness for C2: the one-record dataset `d0` transformed into the
unit-square system gives `d0T`; transforming `d0T` again is a no-op and every
record resolves to a no-mirror decision. -/
theorem transform_idempotent_witness :
    validCS cs01
    ∧ transformDataset d0 cs01 Orientation.fixedHomeAway = Except.ok d0T
    ∧ (transformDataset d0T cs01 Orientation.fixedHomeAway = Except.ok d0T
      ∧ ∀ r ∈ d0T.records,
          resolveMirror d0T.metadata.orientation Orientation.fixedHomeAway r
            = Except.ok false) :=
  ⟨by constructor <;> norm_num [cs01, dim01],
   rfl,
   transform_idempotent d0 cs01 Orientation.fixedHomeAway
     (by constructor <;> norm_num [cs01, dim01]) d0T rfl⟩

/-- C3: a record with an absent coordinate, primary or secondary, is left
coordinateless by the per-record transform: an unknown point is neither
mirrored nor rescaled. -/
theorem transform_absent_coordinates (src tgt : CoordinateSystem)
    (sourceO targetO : Orientation) (r r2 : Event)
    (h : transformRecord src tgt sourceO targetO r = Except.ok r2) :
    (r.coordinates = none → r2.coordinates = none)
    ∧ (r.receiver_coordinates = none → r2.receiver_coordinates = none)
    ∧ (r.end_coordinates = none → r2.end_coordinates = none)
    ∧ (r.result_coordinates = none → r2.result_coordinates = none) := by
  unfold transformRecord at h
  rcases hm : resolveMirror sourceO targetO r with e | m
  · rw [hm] at h; exact Except.noConfusion h
  · rw [hm] at h
    have h2 := Except.ok.inj h
    subst h2
    refine ⟨?_, ?_, ?_, ?_⟩ <;> intro hc <;> simp [hc]

/-- Witness for C3: the coordinateless event `ev0` transformed between the
concrete systems stays coordinateless. -/
theorem transform_absent_coordinates_witness :
    transformRecord cs120 cs01 Orientation.notSet Orientation.notSet ev0
        = Except.ok ev0
    ∧ ((ev0.coordinates = none → ev0.coordinates = none)
      ∧ (ev0.receiver_coordinates = none → ev0.receiver_coordinates = none)
      ∧ (ev0.end_coordinates = none → ev0.end_coordinates = none)
      ∧ (ev0.result_coordinates = none → ev0.result_coordinates = none)) :=
  ⟨rfl,
   transform_absent_coordinates cs120 cs01 Orientation.notSet Orientation.notSet
     ev0 ev0 rfl⟩

lemma resolveMirror_error_eq (source target : Orientation) (r : Event) (e : KloppyError)
    (h : resolveMirror source target r = Except.error e) :
    e = KloppyError.orientationError := by
  unfold resolveMirror at h
  by_cases hst : source = target
  · rw [if_pos hst] at h; exact Except.noConfusion h
  · rw [if_neg hst] at h
    cases target with
    | notSet => exact Except.noConfusion h
    | fixedHomeAway =>
      rcases hb : r.team with _ | t <;> rw [hb] at h <;> exact Except.noConfusion h
    | ballOwningTeam =>
      rcases hb : r.ball_owning_team with _ | t
      · rw [hb] at h
        exact (Except.error.inj h).symm
      · rw [hb] at h
        exact Except.noConfusion h
    | actionExecutingTeam =>
      rcases hb : r.team with _ | t
      · rw [hb] at h
        exact (Except.error.inj h).symm
      · rw [hb] at h
        exact Except.noConfusion h

lemma resolveMirror_missing (source target : Orientation) (r : Event)
    (hdyn : target = Orientation.ballOwningTeam ∨ target = Orientation.actionExecutingTeam)
    (hne : source ≠ target) (hmc : missingContext target r = true) :
    resolveMirror source target r = Except.error KloppyError.orientationError := by
  unfold resolveMirror
  rw [if_neg hne]
  rcases hdyn with rfl | rfl
  · rcases hb : r.ball_owning_team with _ | t
    · rfl
    · simp [missingContext, hb] at hmc
  · rcases hb : r.team with _ | t
    · rfl
    · simp [missingContext, hb] at hmc

/-- C8: when the target orientation is a dynamic variant and some record of
the dataset lacks the required context, the whole transform aborts with the
unresolvable-orientation error and produces no output dataset. -/
theorem transform_missing_context_aborts (d : EventDataset) (tgt : CoordinateSystem)
    (targetO : Orientation)
    (hdyn : targetO = Orientation.ballOwningTeam
      ∨ targetO = Orientation.actionExecutingTeam)
    (hsrc : d.metadata.orientation ≠ targetO)
    (hex : ∃ r ∈ d.records, missingContext targetO r = true) :
    transformDataset d tgt targetO = Except.error KloppyError.orientationError := by
  unfold transformDataset
  have hmap : mapME
      (transformRecord d.metadata.coordinate_system tgt d.metadata.orientation targetO)
      d.records = Except.error KloppyError.orientationError := by
    apply mapME_error_of_mem
    · intro r _
      rcases hres : resolveMirror d.metadata.orientation targetO r with e | m
      · left
        have he : e = KloppyError.orientationError :=
          resolveMirror_error_eq _ _ _ _ hres
        subst he
        unfold transformRecord
        rw [hres]
        rfl
      · right
        unfold transformRecord
        rw [hres]
        exact ⟨_, rfl⟩
    · rcases hex with ⟨r, hr, hmc⟩
      refine ⟨r, hr, ?_⟩
      unfold transformRecord
      rw [resolveMirror_missing _ _ _ hdyn hsrc hmc]
      rfl
  rw [hmap]
  rfl

/-- Witness for C8: the one-record dataset `d0`, whose record has no
ball-owning team, cannot be transformed into the ball-owning-team
orientation. -/
theorem transform_missing_context_aborts_witness :
    (Orientation.ballOwningTeam = Orientation.ballOwningTeam
      ∨ Orientation.ballOwningTeam = Orientation.actionExecutingTeam)
    ∧ d0.metadata.orientation ≠ Orientation.ballOwningTeam
    ∧ (∃ r ∈ d0.records, missingContext Orientation.ballOwningTeam r = true)
    ∧ transformDataset d0 cs01 Orientation.ballOwningTeam
        = Except.error KloppyError.orientationError :=
  ⟨Or.inl rfl, by simp [d0], ⟨ev0, by simp [d0], rfl⟩,
   transform_missing_context_aborts d0 cs01 Orientation.ballOwningTeam
     (Or.inl rfl) (by simp [d0]) ⟨ev0, by simp [d0], rfl⟩⟩

lemma lookupState_set (st : List (String × ℤ)) (k : String) (v : ℤ) :
    lookupState (setState st k v) k = some v := by
  unfold lookupState setState
  rw [List.find?_cons_of_pos _ (by simp)]
  rfl

lemma annotate_length (b : StateBuilder) :
    ∀ (ctx : ℤ) (l : List Event), (annotate b ctx l).length = l.length
  | _, [] => rfl
  | ctx, r :: rs => by
    unfold annotate
    simp [annotate_length b (b.step ctx r) rs]

lemma annotate_snapshot (b : StateBuilder) :
    ∀ (ctx : ℤ) (l : List Event) (i : Nat) (hi : i < l.length)
      (hi2 : i < (annotate b ctx l).length),
      lookupState ((annotate b ctx l).get ⟨i, hi2⟩).state b.key
        = some (List.foldl b.step ctx (l.take (i + 1)))
  | _, [], i, hi, _ => absurd hi (by simp)
  | ctx, r :: rs, 0, _, _ =>
    lookupState_set r.state b.key (b.step ctx r)
  | ctx, r :: rs, (n + 1), hi, hi2 => by
    have hr : n < rs.length := by simpa using hi
    have hr2 : n < (annotate b (b.step ctx r) rs).length := by
      rw [annotate_length]; exact hr
    exact annotate_snapshot b (b.step ctx r) rs n hr hr2

lemma addState_single (registry : List StateBuilder) (k : String) (b : StateBuilder)
    (hb : lookupBuilder registry k = some b) (d : EventDataset) :
    addState registry [k] d
      = Except.ok (EventDataset.mk d.metadata (annotate b b.init d.records)) := by
  unfold addState
  rw [if_pos (by simp)]
  show ((match lookupBuilder registry k with
      | some b2 => Except.ok b2
      | none => Except.error KloppyError.configurationError).bind
        (fun b2 => (mapME _ []).bind (fun bs => Except.ok (b2 :: bs)))).bind _ = _
  rw [hb]
  rfl

/-- C4: for a registered builder key, `add_state` succeeds and the snapshot
attached under that key to the Nth record is the builder's context after
folding exactly the first N records in order, the record's own effect
included; and the pass is deterministic. -/
theorem addState_snapshot_fold (registry : List StateBuilder) (k : String)
    (b : StateBuilder) (hb : lookupBuilder registry k = some b) (d : EventDataset) :
    ∃ d2, addState registry [k] d = Except.ok d2
      ∧ d2.records.length = d.records.length
      ∧ (∀ (i : Nat) (hi : i < d.records.length) (hi2 : i < d2.records.length),
          lookupState (d2.records.get ⟨i, hi2⟩).state k
            = some (List.foldl b.step b.init (d.records.take (i + 1))))
      ∧ ∀ d3, addState registry [k] d = Except.ok d3 → d3 = d2 := by
  have hk : b.key = k := by
    have h2 := List.find?_some hb
    simpa using h2
  refine ⟨EventDataset.mk d.metadata (annotate b b.init d.records),
    addState_single registry k b hb d, ?_, ?_, ?_⟩
  · exact annotate_length b b.init d.records
  · intro i hi hi2
    rw [← hk]
    exact annotate_snapshot b b.init d.records i hi hi2
  · intro d3 h3
    rw [addState_single registry k b hb d] at h3
    exact (Except.ok.inj h3).symm

/-- Witness for C4: the score builder over the two-record dataset `d4`; the
goal shot's own snapshot already counts its goal. -/
theorem addState_snapshot_fold_witness :
    lookupBuilder [scoreBuilder] "score" = some scoreBuilder
    ∧ (∃ d2, addState [scoreBuilder] ["score"] d4 = Except.ok d2
      ∧ d2.records.length = d4.records.length
      ∧ (∀ (i : Nat) (hi : i < d4.records.length) (hi2 : i < d2.records.length),
          lookupState (d2.records.get ⟨i, hi2⟩).state "score"
            = some (List.foldl scoreBuilder.step scoreBuilder.init
                (d4.records.take (i + 1))))
      ∧ ∀ d3, addState [scoreBuilder] ["score"] d4 = Except.ok d3 → d3 = d2) :=
  ⟨rfl, addState_snapshot_fold [scoreBuilder] "score" scoreBuilder rfl d4⟩

/-- C7: an unregistered builder key and a colliding (duplicate) builder key
make `add_state` fail with a configuration error before any record is
processed (the error carries no dataset, so no record of any output carries a
partial annotation); a degenerate pitch-dimension interval is rejected at
construction; an unknown coordinate-system identifier is rejected by the
registry. -/
theorem setup_errors_fail_fast :
    (∀ (registry : List StateBuilder) (keys : List String) (d : EventDataset)
        (k : String), k ∈ keys → lookupBuilder registry k = none →
        addState registry keys d = Except.error KloppyError.configurationError)
    ∧ (∀ (registry : List StateBuilder) (keys : List String) (d : EventDataset),
        ¬ keys.Nodup →
        addState registry keys d = Except.error KloppyError.configurationError)
    ∧ (∀ lo : ℚ, mkDimension lo lo = Except.error KloppyError.configurationError)
    ∧ (∀ p : String, p ≠ "statsbomb" → p ≠ "tracab" → p ≠ "opta" →
        coordinateSystemFromProvider p
          = Except.error KloppyError.configurationError) := by
  refine ⟨?_, ?_, ?_, ?_⟩
  · intro registry keys d k hk hlook
    unfold addState
    by_cases hnd : keys.Nodup
    · rw [if_pos hnd]
      have hmap : mapME
          (fun k2 =>
            match lookupBuilder registry k2 with
            | some b => Except.ok b
            | none => Except.error KloppyError.configurationError)
          keys = Except.error KloppyError.configurationError := by
        apply mapME_error_of_mem
        · intro x _
          rcases h2 : lookupBuilder registry x with _ | b
          · left; rfl
          · right; exact ⟨b, rfl⟩
        · exact ⟨k, hk, by rw [hlook]⟩
      rw [hmap]
      rfl
    · rw [if_neg hnd]
  · intro registry keys d hnd
    unfold addState
    rw [if_neg hnd]
  · intro lo
    unfold mkDimension
    rw [if_neg (lt_irrefl lo)]
  · intro p h1 h2 h3
    unfold coordinateSystemFromProvider
    rw [if_neg h1, if_neg h2, if_neg h3]

/-- Witness for C7 at concrete inputs: an unregistered key, a duplicated
key, a zero-width interval and an unknown provider identifier. -/
theorem setup_errors_fail_fast_witness :
    ("nope" ∈ ["nope"] ∧ lookupBuilder [] "nope" = none
      ∧ addState [] ["nope"] d0 = Except.error KloppyError.configurationError)
    ∧ (¬ (["score", "score"] : List String).Nodup
      ∧ addState [scoreBuilder] ["score", "score"] d0
          = Except.error KloppyError.configurationError)
    ∧ mkDimension 5 5 = Except.error KloppyError.configurationError
    ∧ ("wyscout" ≠ "statsbomb"
      ∧ coordinateSystemFromProvider "wyscout"
          = Except.error KloppyError.configurationError) :=
  ⟨⟨List.mem_singleton.mpr rfl, rfl,
    setup_errors_fail_fast.1 [] ["nope"] d0 "nope" (List.mem_singleton.mpr rfl) rfl⟩,
   ⟨by simp,
    setup_errors_fail_fast.2.1 [scoreBuilder] ["score", "score"] d0 (by simp)⟩,
   setup_errors_fail_fast.2.2.1 5,
   ⟨by simp,
    setup_errors_fail_fast.2.2.2 "wyscout" (by simp) (by simp) (by simp)⟩⟩

/-- C5: on the dataset heap, `transform` and `add_state` leave every
pre-existing dataset — in particular their input — unchanged and place their
result at a fresh address: they return new datasets and never mutate in
place. -/
theorem ops_return_new_datasets (registry : List StateBuilder) (h : Heap) (i : Nat)
    (tgt : CoordinateSystem) (o : Orientation) (keys : List String) :
    (∀ (h2 : Heap) (j : Nat), transformOp h i tgt o = Except.ok (h2, j) →
      (∀ n, n < h.datasets.length → h2.datasets.get? n = h.datasets.get? n)
      ∧ j = h.datasets.length
      ∧ h2.datasets.length = h.datasets.length + 1)
    ∧ (∀ (h2 : Heap) (j : Nat), addStateOp registry h i keys = Except.ok (h2, j) →
      (∀ n, n < h.datasets.length → h2.datasets.get? n = h.datasets.get? n)
      ∧ j = h.datasets.length
      ∧ h2.datasets.length = h.datasets.length + 1) := by
  constructor
  · intro h2 j hop
    unfold transformOp at hop
    rcases hg : h.datasets.get? i with _ | d
    · rw [hg] at hop
      exact Except.noConfusion hop
    · rw [hg] at hop
      have hop2 : (do
          let d2 ← transformDataset d tgt o
          Except.ok (h.alloc d2)) = Except.ok (h2, j) := hop
      rcases ht : transformDataset d tgt o with e | d2
      · rw [ht] at hop2
        exact Except.noConfusion hop2
      · rw [ht] at hop2
        have hpair := Except.ok.inj hop2
        have hh2 : Heap.mk (h.datasets ++ [d2]) = h2 := congrArg Prod.fst hpair
        have hj : h.datasets.length = j := congrArg Prod.snd hpair
        subst hh2
        subst hj
        exact ⟨fun n hn => List.get?_append hn, rfl, by simp⟩
  · intro h2 j hop
    unfold addStateOp at hop
    rcases hg : h.datasets.get? i with _ | d
    · rw [hg] at hop
      exact Except.noConfusion hop
    · rw [hg] at hop
      have hop2 : (do
          let d2 ← addState registry keys d
          Except.ok (h.alloc d2)) = Except.ok (h2, j) := hop
      rcases ht : addState registry keys d with e | d2
      · rw [ht] at hop2
        exact Except.noConfusion hop2
      · rw [ht] at hop2
        have hpair := Except.ok.inj hop2
        have hh2 : Heap.mk (h.datasets ++ [d2]) = h2 := congrArg Prod.fst hpair
        have hj : h.datasets.length = j := congrArg Prod.snd hpair
        subst hh2
        subst hj
        exact ⟨fun n hn => List.get?_append hn, rfl, by simp⟩

/-- Witness for C5: transforming and state-annotating the one-dataset heap
`hp0`; address 0 still holds `d0` afterwards and the result sits at the fresh
address 1. -/
theorem ops_return_new_datasets_witness :
    transformOp hp0 0 cs01 Orientation.fixedHomeAway = Except.ok (hpT, 1)
    ∧ addStateOp [scoreBuilder] hp0 0 ["score"] = Except.ok (hpS, 1)
    ∧ ((∀ n, n < hp0.datasets.length → hpT.datasets.get? n = hp0.datasets.get? n)
      ∧ 1 = hp0.datasets.length
      ∧ hpT.datasets.length = hp0.datasets.length + 1)
    ∧ ((∀ n, n < hp0.datasets.length → hpS.datasets.get? n = hp0.datasets.get? n)
      ∧ 1 = hp0.datasets.length
      ∧ hpS.datasets.length = hp0.datasets.length + 1) :=
  ⟨rfl, rfl,
   (ops_return_new_datasets [scoreBuilder] hp0 0 cs01 Orientation.fixedHomeAway
     ["score"]).1 hpT 1 rfl,
   (ops_return_new_datasets [scoreBuilder] hp0 0 cs01 Orientation.fixedHomeAway
     ["score"]).2 hpS 1 rfl⟩

/-- C6: `get_related_events` on a detached record raises OrphanedRecordError;
on an attached record it returns one record per identifier of
`related_event_ids`, in that order, each resolved through the owning
dataset's lookup-by-identifier. -/
theorem get_related_events_spec (e : Event) :
    (get_related_events none e = Except.error KloppyError.orphanedRecordError)
    ∧ ∀ (d : EventDataset) (l : List Event),
        get_related_events (some d) e = Except.ok l →
        l.length = e.related_event_ids.length
        ∧ ∀ (i : Nat) (hi : i < e.related_event_ids.length) (hl : i < l.length),
            get_record_by_id d (e.related_event_ids.get ⟨i, hi⟩)
              = Except.ok (l.get ⟨i, hl⟩) := by
  refine ⟨rfl, ?_⟩
  intro d l h
  unfold get_related_events at h
  exact mapME_ok_spec _ _ _ h

/-- Witness for C6: the event `e6` detached and then attached to the dataset
`d6`, where its one related identifier resolves to the shot event. -/
theorem get_related_events_spec_witness :
    get_related_events none e6 = Except.error KloppyError.orphanedRecordError
    ∧ get_related_events (some d6) e6 = Except.ok [evShot]
    ∧ (([evShot] : List Event).length = e6.related_event_ids.length
      ∧ ∀ (i : Nat) (hi : i < e6.related_event_ids.length)
          (hl : i < ([evShot] : List Event).length),
          get_record_by_id d6 (e6.related_event_ids.get ⟨i, hi⟩)
            = Except.ok (([evShot] : List Event).get ⟨i, hl⟩)) :=
  ⟨(get_related_events_spec e6).1, rfl,
   (get_related_events_spec e6).2 d6 [evShot] rfl⟩

lemma find_first {α : Type} (p : α → Bool) :
    ∀ (l : List α) (i : Nat) (hi : i < l.length),
      p (l.get ⟨i, hi⟩) = true →
      (∀ (j : Nat) (hj : j < i), p (l.get ⟨j, lt_trans hj hi⟩) = false) →
      l.find? p = some (l.get ⟨i, hi⟩)
  | [], i, hi, _, _ => absurd hi (by simp)
  | a :: l, 0, hi, hp, _ => by
    rw [List.find?_cons_of_pos _ (by simpa using hp)]
    rfl
  | a :: l, (n + 1), hi, hp, hprev => by
    have ha : p a = false := by simpa using hprev 0 (Nat.succ_pos n)
    rw [List.find?_cons_of_neg _ (by simp [ha])]
    have hn : n < l.length := by simpa using hi
    have := find_first p l n hn (by simpa using hp)
      (fun j hj => by simpa using hprev (j + 1) (Nat.succ_lt_succ hj))
    simpa using this

/-- C9: `get_qualifier_value` returns the value of the first qualifier of
the requested type; it returns None when the qualifiers attribute is absent,
and when no qualifier (in particular in an empty list) has the requested
type. -/
theorem get_qualifier_value_spec (e : Event) (t : QualifierType) :
    (e.qualifiers = none → get_qualifier_value e t = none)
    ∧ (∀ qs, e.qualifiers = some qs → (∀ q ∈ qs, isinstanceQ q t = false) →
        get_qualifier_value e t = none)
    ∧ (∀ qs (i : Nat) (hi : i < qs.length), e.qualifiers = some qs →
        isinstanceQ (qs.get ⟨i, hi⟩) t = true →
        (∀ (j : Nat) (hj : j < i), isinstanceQ (qs.get ⟨j, lt_trans hj hi⟩) t = false) →
        get_qualifier_value e t = some (qualifierValueOf (qs.get ⟨i, hi⟩))) := by
  refine ⟨?_, ?_, ?_⟩
  · intro h
    unfold get_qualifier_value
    rw [h]
  · intro qs h hall
    unfold get_qualifier_value
    rw [h]
    have hf : qs.find? (fun q => isinstanceQ q t) = none :=
      List.find?_eq_none.mpr (fun x hx => by simp [hall x hx])
    show (match qs.find? (fun q => isinstanceQ q t) with
      | some q => some (qualifierValueOf q)
      | none => none) = none
    rw [hf]
  · intro qs i hi hq hinst hprev
    unfold get_qualifier_value
    rw [hq]
    show (match qs.find? (fun q => isinstanceQ q t) with
      | some q => some (qualifierValueOf q)
      | none => none) = some (qualifierValueOf (qs.get ⟨i, hi⟩))
    rw [find_first (fun q => isinstanceQ q t) qs i hi hinst hprev]

/-- Witness for C9: an event without qualifiers, an event whose qualifiers
hold no card qualifier, and the first set-piece qualifier of `qlist` sitting
behind a counter-attack qualifier. -/
theorem get_qualifier_value_spec_witness :
    get_qualifier_value ev0 QualifierType.setPieceQualifier = none
    ∧ get_qualifier_value e9 QualifierType.cardQualifier = none
    ∧ get_qualifier_value e9 QualifierType.setPieceQualifier
        = some (QualifierValue.setPiece SetPieceType.penalty) :=
  ⟨(get_qualifier_value_spec ev0 QualifierType.setPieceQualifier).1 rfl,
   (get_qualifier_value_spec e9 QualifierType.cardQualifier).2.1 qlist rfl
     (by decide),
   (get_qualifier_value_spec e9 QualifierType.setPieceQualifier).2.2 qlist 1
     (by decide) rfl (by decide)
     (fun j hj => by
       have hj0 : j = 0 := Nat.lt_one_iff.mp hj
       subst hj0
       show isinstanceQ (Qualifier.counterAttack true) QualifierType.setPieceQualifier
         = false
       rfl)⟩

/-- C1: per axis the engine first reflects about the source bounds when the
mirror flag is set, then linearly rescales from the source interval to the
target interval (the stated formula), the flip reflection acting about target
bounds; transforming x-coordinates 10, 60, 110 from the 0–120 system to the
0–1 system with no orientation change yields 0.083, 0.5, 0.917 to three
decimals, and mirroring an away-team record at raw x = 110 yields
1 - 0.917 = 0.083. -/
theorem transformAxis_spec (src tgt : Dimension) (x : ℚ)
    (hs : src.min < src.max) :
    (transformAxis src tgt false false x
        = tgt.min + (x - src.min) / (src.max - src.min) * (tgt.max - tgt.min))
    ∧ (transformAxis src tgt true false x
        = reflectDim tgt (transformAxis src tgt false false x))
    ∧ |transformAxis dim120 dim01 false false 10 - 83/1000| ≤ 1/2000
    ∧ transformAxis dim120 dim01 false false 60 = 1/2
    ∧ |transformAxis dim120 dim01 false false 110 - 917/1000| ≤ 1/2000
    ∧ transformAxis dim120 dim01 true false 110
        = 1 - transformAxis dim120 dim01 false false 110
    ∧ |transformAxis dim120 dim01 true false 110 - 83/1000| ≤ 1/2000 := by
  have hne : src.max - src.min ≠ 0 := sub_ne_zero.mpr (ne_of_gt hs)
  refine ⟨rfl, ?_, ?_, ?_, ?_, ?_, ?_⟩
  · simp only [transformAxis, reflectDim, rescaleDim, Bool.false_eq_true, ite_false, ite_true]
    field_simp
    ring
  · norm_num [transformAxis, rescaleDim, reflectDim, dim120, dim01, abs_le]
  · norm_num [transformAxis, rescaleDim, reflectDim, dim120, dim01]
  · norm_num [transformAxis, rescaleDim, reflectDim, dim120, dim01, abs_le]
  · norm_num [transformAxis, rescaleDim, reflectDim, dim120, dim01]
  · norm_num [transformAxis, rescaleDim, reflectDim, dim120, dim01, abs_le]

/-- Witness for C1 at the concrete 0–120 source interval, 0–1 target
interval and x = 10. -/
theorem transformAxis_spec_witness :
    dim120.min < dim120.max
    ∧ ((transformAxis dim120 dim01 false false 10
        = dim01.min + (10 - dim120.min) / (dim120.max - dim120.min) * (dim01.max - dim01.min))
      ∧ (transformAxis dim120 dim01 true false 10
          = reflectDim dim01 (transformAxis dim120 dim01 false false 10))
      ∧ |transformAxis dim120 dim01 false false 10 - 83/1000| ≤ 1/2000
      ∧ transformAxis dim120 dim01 false false 60 = 1/2
      ∧ |transformAxis dim120 dim01 false false 110 - 917/1000| ≤ 1/2000
      ∧ transformAxis dim120 dim01 true false 110
          = 1 - transformAxis dim120 dim01 false false 110
      ∧ |transformAxis dim120 dim01 true false 110 - 83/1000| ≤ 1/2000) :=
  ⟨by norm_num [dim120], transformAxis_spec dim120 dim01 10 (by norm_num [dim120])⟩

/-- C10 counterexample: the filter "." splits into two parts whose
event-type part is the empty string; the empty string is not a known
event-type name, yet `matches` returns True instead of raising
InvalidFilterError, because the empty part is falsy in Python and skips both
checks. -/
theorem matches_empty_part_counterexample :
    matchesF ev0 (some ".") = Except.ok true
    ∧ eventTypeFromName "" = none :=
  ⟨rfl, rfl⟩

/-- C10 amended: `matches` upper-cases the string filter and splits it on
dots; more than two parts raise InvalidFilterError; a one- or two-part
filter whose event-type part is non-empty and not a known event-type name
raises InvalidFilterError (an empty part skips the check); a two-part filter
whose event type matches but whose non-empty result part finds no result on
the event, or is not a member name of the result's enum class, returns False
without raising; a `None` filter always matches. -/
theorem matches_spec_amended (e : Event) (f : String) (et res : String) :
    (matchesF e none = Except.ok true)
    ∧ (2 < (splitOnDot (upperString f)).length →
        matchesF e (some f) = Except.error KloppyError.invalidFilterError)
    ∧ (splitOnDot (upperString f) = [et] → et ≠ "" → eventTypeFromName et = none →
        matchesF e (some f) = Except.error KloppyError.invalidFilterError)
    ∧ (splitOnDot (upperString f) = [et, res] → et ≠ "" →
        eventTypeFromName et = none →
        matchesF e (some f) = Except.error KloppyError.invalidFilterError)
    ∧ (splitOnDot (upperString f) = [et, res] → et ≠ "" →
        eventTypeFromName et = some e.event_type → res ≠ "" → e.result = none →
        matchesF e (some f) = Except.ok false)
    ∧ (∀ rv, splitOnDot (upperString f) = [et, res] → et ≠ "" →
        eventTypeFromName et = some e.event_type → res ≠ "" →
        e.result = some rv → resultClassLookup rv res = none →
        matchesF e (some f) = Except.ok false) := by
  refine ⟨rfl, ?_, ?_, ?_, ?_, ?_⟩
  · intro hlen
    rcases hs : splitOnDot (upperString f) with _ | ⟨a, _ | ⟨b, _ | ⟨c, rest⟩⟩⟩
    · rw [hs] at hlen; simp at hlen
    · rw [hs] at hlen; simp at hlen
    · rw [hs] at hlen; simp at hlen
    · simp [matchesF, hs]
  · intro hsplit het hnone
    simp [matchesF, hsplit, matchesParts, het, hnone]
  · intro hsplit het hnone
    simp [matchesF, hsplit, matchesParts, het, hnone]
  · intro hsplit het hlook hres hresult
    simp [matchesF, hsplit, matchesParts, het, hlook, matchesResultPart, hres, hresult]
  · intro rv hsplit het hlook hres hresult hclass
    simp [matchesF, hsplit, matchesParts, het, hlook, matchesResultPart, hres,
      hresult, hclass]

/-- Witness for C10 at concrete filters: a three-part filter and an unknown
event type raise InvalidFilterError; a matching event type with a result
name foreign to the result's enum class returns False; the `None` filter
matches. -/
theorem matches_spec_amended_witness :
    matchesF ev0 (some "a.b.c") = Except.error KloppyError.invalidFilterError
    ∧ matchesF ev0 (some "nope") = Except.error KloppyError.invalidFilterError
    ∧ matchesF evPass (some "pass.goal") = Except.ok false
    ∧ matchesF ev0 none = Except.ok true :=
  ⟨(matches_spec_amended ev0 "a.b.c" "A" "B").2.1 (by decide),
   (matches_spec_amended ev0 "nope" "NOPE" "").2.2.1 rfl (by simp) rfl,
   (matches_spec_amended evPass "pass.goal" "PASS" "GOAL").2.2.2.2.2
     (ResultVal.pass PassResult.complete) rfl (by simp) rfl (by simp) rfl rfl,
   (matches_spec_amended ev0 "x" "X" "Y").1⟩

end Kloppy
